import Mathlib

/-!
Shallow embedding of the payment-to-settlement orchestration engine of
`src/backend.py` (FastAPI donation backend: KakaoPay gateway + web3
settlement).  Rows of the two SQLite tables become Lean structures, the
database session becomes an explicit `Store`, the three HTTP handlers
(`api_ready`, `api_approve`, `api_donations`) become pure functions from a
`Store` and an environment (gateway responses, web3 world state, clock) to
a result and a new `Store`.  Machine integers are `Nat` (amounts are small
positive integers; Python ints are unbounded anyway), timestamps are `Nat`,
fallible handlers return `Except HTTPException`.
-/

namespace DonationBackend

/-- Constant `ETHERSCAN_BASE` from backend.py (display base for explorer URLs). -/
def ETHERSCAN_BASE : String := "https://sepolia.etherscan.io"

/-- Row of the `payments` table (class `Payment` in backend.py).
`created_at`/`updated_at` model the DateTime columns as abstract ticks. -/
structure Payment where
  order_id : String
  tid : Option String
  payment_status : String
  amount_won : Nat
  nickname : Option String
  memo : Option String
  created_at : Nat
  updated_at : Nat
deriving DecidableEq

/-- Row of the `donations` table (class `Donation` in backend.py); the
settlement receipt, keyed one-to-one by `order_id`. -/
structure Donation where
  order_id : String
  tx_hash : String
  etherscan_url : String
  onchain_status : String
  amount_wei : String
  block_time : Option Nat
  created_at : Nat
deriving DecidableEq

/-- The SQLite database content relevant to the core: both tables. -/
structure Store where
  payments : List Payment
  donations : List Donation
deriving DecidableEq

/-- Detail payload of a FastAPI HTTPException: either a plain string or
the dict `\x7b"kakao_error": result\x7d` that forwards the raw gateway
payload (modelled by the raw JSON text it wraps). -/
inductive Detail where
  | str (s : String)
  | kakaoError (payload : String)
deriving DecidableEq

/-- `fastapi.HTTPException` as raised by the handlers. -/
structure HTTPException where
  status_code : Nat
  detail : Detail
deriving DecidableEq

/-- Parsed JSON body of a KakaoPay response, with the fields backend.py
reads, plus `raw`, the whole body as text (what gets forwarded verbatim
inside a `kakao_error` detail). -/
structure KakaoJson where
  tid : Option String
  next_redirect_pc_url : Option String
  next_redirect_app_url : Option String
  next_redirect_mobile_url : Option String
  raw : String
deriving DecidableEq

/-- Wire-level response of a KakaoPay POST: HTTP status, body text, and
the JSON parse of the body (`none` when `r.json()` raises). -/
structure HttpResp where
  status_code : Nat
  text : String
  json : Option KakaoJson
deriving DecidableEq

/-- `kakao_post` from backend.py: parse failure gives a 502 with the body
text; a non-200 status gives a 400 forwarding the parsed payload; a 200
returns the payload. -/
def kakao_post (r : HttpResp) : Except HTTPException KakaoJson :=
  match r.json with
  | none => .error ⟨502, .str ("Kakao response not JSON: " ++ r.text)⟩
  | some result =>
      if r.status_code ≠ 200 then .error ⟨400, .kakaoError result.raw⟩
      else .ok result

/-- Python truthiness of an optional string (`None` and `""` are falsy). -/
def py_truthy : Option String → Bool
  | none => false
  | some s => s ≠ ""

/-- Python `a or b` on optional strings. -/
def py_or (a b : Option String) : Option String :=
  if py_truthy a then a else b

/-- Translation of Python `hexstr.startswith("0x")`: the first two
characters are `0x`. -/
def starts_with_0x (s : String) : Bool :=
  s.data.take 2 == ['0', 'x']

/-- `ensure_0x` from backend.py. -/
def ensure_0x (hexstr : String) : String :=
  if starts_with_0x hexstr then hexstr else "0x" ++ hexstr

/-- World state seen through web3 during one settlement attempt: the
configured values read from `config`, connectivity, chain data, and the
outcomes of the fallible build/sign/broadcast steps. -/
structure Web3Env where
  rpc : Option String
  contract_addr : Option String
  priv : Option String
  abi : Bool
  connected : Bool
  code : List Nat
  key_ok : Bool
  key_err : String
  address : String
  chain_id : Nat
  base_fee : Option Nat
  gas_price : Nat
  nonce : Nat
  build_sign_err : Option String
  raw_present : Bool
  send_err : Option String
  tx_hash_hex : String
deriving DecidableEq

/-- `explorer_base_for_chain` from backend.py: map the resolved chain id
to an explorer base, falling back to `ETHERSCAN_BASE` when no RPC is
configured or the provider is unreachable. -/
def explorer_base_for_chain (w : Web3Env) : String :=
  match w.rpc with
  | none => ETHERSCAN_BASE
  | some _ =>
      if !w.connected then ETHERSCAN_BASE
      else if w.chain_id = 1 then "https://etherscan.io"
      else if w.chain_id = 11155111 then "https://sepolia.etherscan.io"
      else if w.chain_id = 17000 ∨ w.chain_id = 17001 then "https://holesky.etherscan.io"
      else ETHERSCAN_BASE

/-- `w3.to_wei(1, "gwei")`. -/
def GWEI : Nat := 10 ^ 9

/-- The `tx_params` dict built in `try_onchain_record`. -/
structure TxParams where
  from_addr : String
  nonce : Nat
  gas : Nat
  chainId : Nat
  maxPriorityFeePerGas : Option Nat
  maxFeePerGas : Option Nat
  gasPrice : Option Nat
deriving DecidableEq

/-- Fee-strategy selection of `try_onchain_record` (backend.py lines
231-244): `if base:` is Python truthiness, so a missing block base fee
`none` and a zero base fee both take the legacy `gasPrice` branch; a
nonzero base fee yields EIP-1559 fields. -/
def build_tx_params (w : Web3Env) : TxParams :=
  let base0 : TxParams :=
    { from_addr := w.address, nonce := w.nonce, gas := 300000, chainId := w.chain_id,
      maxPriorityFeePerGas := none, maxFeePerGas := none, gasPrice := none }
  match w.base_fee with
  | some b =>
      if b ≠ 0 then
        { base0 with maxPriorityFeePerGas := some GWEI, maxFeePerGas := some (b * 2 + GWEI) }
      else
        { base0 with gasPrice := some w.gas_price }
  | none => { base0 with gasPrice := some w.gas_price }

/-- Outcome of one run of `try_onchain_record`: an error message, or a
broadcast of the built transaction calling `recordDonation(amount, memo)`
that returned a transaction hash. -/
inductive OnchainOutcome where
  | fail (msg : String)
  | sent (tx : TxParams) (amount : Nat) (memo : String) (txhash : String)
deriving DecidableEq

/-- Body of `try_onchain_record` from backend.py, with each guard in
source order; every failure (missing configuration, unreachable RPC, no
contract code, bad key, build/sign exception, missing raw bytes,
broadcast exception) becomes `fail` with the message the source
produces. -/
def try_onchain_run (w : Web3Env) (amount_wei : Nat) (memo : String) : OnchainOutcome :=
  if w.rpc = none then .fail "RPC_URL missing"
  else if w.contract_addr = none then .fail "CONTRACT_ADDRESS missing"
  else if w.priv = none then .fail "WALLET_PRIVATE_KEY missing"
  else if !w.abi then .fail "CONTRACT_ABI missing"
  else if !w.connected then .fail "Web3 not connected (check RPC_URL/key)"
  else if w.code = [] then .fail "No contract code at address (wrong network?)"
  else if !w.key_ok then .fail ("Invalid private key: " ++ w.key_err)
  else
    match w.build_sign_err with
    | some e => .fail e
    | none =>
        if !w.raw_present then
          .fail "SignedTransaction missing raw transaction bytes (web3 version mismatch)"
        else
          match w.send_err with
          | some e => .fail e
          | none => .sent (build_tx_params w) amount_wei memo w.tx_hash_hex

/-- `try_onchain_record` as seen by its caller: `(tx_hash_hex, error)`. -/
def try_onchain_record (w : Web3Env) (amount_wei : Nat) (memo : String) :
    Option String × Option String :=
  match try_onchain_run w amount_wei memo with
  | .fail m => (none, some m)
  | .sent _ _ _ h => (some h, none)

/-- Request body of `POST /api/v1/kakaopay/ready` (pydantic `ReadyReq`;
`amountWon` carries the `ge=1` validation at the HTTP layer). -/
structure ReadyReq where
  amountWon : Nat
  nickname : Option String
  memo : Option String
  returnUrl : String
deriving DecidableEq

/-- Response of `POST /api/v1/kakaopay/ready`. -/
structure ReadyRes where
  orderId : String
  redirectUrl : String
  qrImage : Option String
deriving DecidableEq

/-- Request body of `POST /api/v1/kakaopay/approve`. -/
structure ApproveReq where
  orderId : String
  pgToken : String
deriving DecidableEq

/-- Response of `POST /api/v1/kakaopay/approve` (pydantic `ApproveRes`),
including the display-metadata fields. -/
structure ApproveRes where
  status : String
  orderId : String
  txHash : Option String
  etherscanUrl : Option String
  amountWon : Option Nat
  amountWei : Option String
  onchainStatus : Option String
  onchainError : Option String
  contractAddress : Option String
  contractName : Option String
  orderIdKeccak : Option String
  explorerBase : Option String
  function : Option String
deriving DecidableEq

/-- One row of the `GET /api/v1/donations` response (`DonationItem`);
`timestamp` models the ISO rendering of `created_at` by the tick itself. -/
structure DonationItem where
  orderId : String
  nickname : Option String
  amountWon : Nat
  amountWei : Option String
  memo : Option String
  txHash : Option String
  etherscanUrl : Option String
  timestamp : Nat
deriving DecidableEq

/-- Response of `GET /api/v1/donations`. -/
structure DonationList where
  items : List DonationItem
  nextCursor : Option String
deriving DecidableEq

/-- Environment of one `api_ready` call: `OFFLINE_MODE`, the fresh
`uuid4` order id, the wire response of the KakaoPay ready endpoint, and
`class_default`, the timestamp captured once at module import by the
`default=datetime.now(timezone.utc)` column arguments (backend.py lines
40-41 evaluate `datetime.now` at class-definition time, so every row
created by this process gets that same stored default). -/
structure ReadyEnv where
  offline : Bool
  order_id : String
  kakao : HttpResp
  class_default : Nat
deriving DecidableEq

/-- Handler `api_ready` from backend.py as a function of the call
environment and the store: offline mode skips the gateway and simulates
the redirect; online mode calls the ready endpoint, records the payment
with the returned `tid`, and fails with 502 if no redirect URL came
back (the payment row is already committed at that point). -/
def api_ready (env : ReadyEnv) (s : Store) (body : ReadyReq) :
    Except HTTPException ReadyRes × Store :=
  let order_id := env.order_id
  let approval_url := body.returnUrl ++ "?orderId=" ++ order_id
  if env.offline then
    let p : Payment :=
      { order_id := order_id, tid := some "OFFLINE_TID", payment_status := "pending",
        amount_won := body.amountWon, nickname := body.nickname, memo := body.memo,
        created_at := env.class_default, updated_at := env.class_default }
    let s1 : Store := { s with payments := s.payments ++ [p] }
    (.ok { orderId := order_id, redirectUrl := approval_url ++ "&pg_token=OFFLINE",
           qrImage := none }, s1)
  else
    match kakao_post env.kakao with
    | .error e => (.error e, s)
    | .ok ready =>
        let p : Payment :=
          { order_id := order_id, tid := ready.tid, payment_status := "pending",
            amount_won := body.amountWon, nickname := body.nickname, memo := body.memo,
            created_at := env.class_default, updated_at := env.class_default }
        let s1 : Store := { s with payments := s.payments ++ [p] }
        let redirect := py_or ready.next_redirect_pc_url
          (py_or ready.next_redirect_app_url ready.next_redirect_mobile_url)
        if !py_truthy redirect then
          (.error ⟨502, .str "No redirect URL from KakaoPay"⟩, s1)
        else
          (.ok { orderId := order_id, redirectUrl := redirect.getD "", qrImage := none }, s1)

/-- Environment of one `api_approve` call: `OFFLINE_MODE`, the wire
response of the KakaoPay approve endpoint, the web3 world state, the
configured contract address, the current time `now`, and the import-time
column default `class_default` (see `ReadyEnv`). -/
structure ApproveEnv where
  offline : Bool
  kakao : HttpResp
  web3 : Web3Env
  contract_address : Option String
  now : Nat
  class_default : Nat
deriving DecidableEq

/-- SQLAlchemy identity-map update of a payment row: the row with the
same primary key is replaced. -/
def update_payment (ps : List Payment) (p' : Payment) : List Payment :=
  ps.map fun q => if q.order_id == p'.order_id then p' else q

/-- The already-approved replay response of `api_approve` (backend.py
lines 363-381): rebuilt from the stored rows, with the `function` field
re-derived from whether the stored `amount_wei` is nonzero, the fixed
`ETHERSCAN_BASE` as explorer base, and no `onchainError` field. -/
def approve_replay (env : ApproveEnv) (p : Payment) (d : Donation) : ApproveRes :=
  let fn : String :=
    if d.amount_wei ≠ "" ∧ d.amount_wei ≠ "0" then "donateEthAndForward" else "recordDonation"
  { status := "paid", orderId := p.order_id, txHash := some d.tx_hash,
    etherscanUrl := some d.etherscan_url, amountWon := some p.amount_won,
    amountWei := some d.amount_wei, onchainStatus := some d.onchain_status,
    onchainError := none, contractAddress := env.contract_address,
    contractName := some "DonationSettlement", orderIdKeccak := none,
    explorerBase := some ETHERSCAN_BASE, function := some fn }

/-- The `(tx_hash, onchain_status, onchain_error)` triple computed by the
settlement block of `api_approve` (backend.py lines 402-416): a dummy
confirmed hash offline, otherwise the result of `try_onchain_record`,
with the sentinel hash and status "error" on failure (including the
degenerate empty-hash case of the Python truthiness test `if txh:`). -/
def settle_outcome (env : ApproveEnv) (p : Payment) : String × String × Option String :=
  if env.offline then ("0xDUMMY_HASH", "confirmed", none)
  else
    match try_onchain_record env.web3 (p.amount_won * 10 ^ 9) (p.memo.getD "") with
    | (some txh, err) =>
        if txh ≠ "" then (txh, "submitted", none) else ("0xERROR_ONCHAIN", "error", err)
    | (none, err) => ("0xERROR_ONCHAIN", "error", err)

/-- The `Donation` row inserted by the settlement tail of `api_approve`
(backend.py lines 420-429). -/
def settle_donation (env : ApproveEnv) (p : Payment) : Donation :=
  { order_id := p.order_id,
    tx_hash := ensure_0x (settle_outcome env p).1,
    etherscan_url :=
      explorer_base_for_chain env.web3 ++ "/tx/" ++ ensure_0x (settle_outcome env p).1,
    onchain_status := (settle_outcome env p).2.1,
    amount_wei := toString (p.amount_won * 10 ^ 9),
    block_time := some env.now, created_at := env.class_default }

/-- The approval-and-settlement tail of `api_approve` (backend.py lines
396-447): mark the payment approved, convert the amount, run the dummy or
real on-chain write, persist the receipt row, and build the response
(whose `txHash` applies `ensure_0x` a second time, line 434). -/
def approve_settle (env : ApproveEnv) (s : Store) (p : Payment) : ApproveRes × Store :=
  let p' : Payment := { p with payment_status := "approved", updated_at := env.now }
  let d : Donation := settle_donation env p
  let res : ApproveRes :=
    { status := "paid", orderId := p.order_id, txHash := some (ensure_0x d.tx_hash),
      etherscanUrl := some d.etherscan_url, amountWon := some p.amount_won,
      amountWei := some (toString (p.amount_won * 10 ^ 9)),
      onchainStatus := some (settle_outcome env p).2.1,
      onchainError := (settle_outcome env p).2.2, contractAddress := env.contract_address,
      contractName := some "DonationSettlement", orderIdKeccak := none,
      explorerBase := some (explorer_base_for_chain env.web3),
      function := some "recordDonation" }
  (res, ⟨update_payment s.payments p', s.donations ++ [d]⟩)

/-- The post-lookup, not-yet-replayed part of `api_approve`: in online
mode require a truthy `tid` and a successful gateway approve call, then
settle; offline mode settles directly. -/
def approve_after_lookup (env : ApproveEnv) (s : Store) (p : Payment) :
    Except HTTPException ApproveRes × Store :=
  if env.offline then
    let r := approve_settle env s p
    (.ok r.1, r.2)
  else
    if !py_truthy p.tid then
      (.error ⟨400, .str "missing tid for this orderId"⟩, s)
    else
      match kakao_post env.kakao with
      | .error e => (.error e, s)
      | .ok _ =>
          let r := approve_settle env s p
          (.ok r.1, r.2)

/-- Handler `api_approve` from backend.py, as a function of the call
environment, the store, the request body, and the advisory
`Idempotency-Key` header (read by FastAPI, never used by the body). -/
def api_approve (env : ApproveEnv) (s : Store) (body : ApproveReq)
    (idempotency_key : Option String) : Except HTTPException ApproveRes × Store :=
  match s.payments.find? (fun q => q.order_id == body.orderId) with
  | none => (.error ⟨400, .str "unknown orderId"⟩, s)
  | some p =>
      if p.payment_status == "approved" then
        match s.donations.find? (fun d => d.order_id == p.order_id) with
        | some d => (.ok (approve_replay env p d), s)
        | none => approve_after_lookup env s p
      else approve_after_lookup env s p

/-- `ORDER BY Payment.created_at DESC` as a (stable) insertion sort. -/
def sort_payments_desc (ps : List Payment) : List Payment :=
  ps.insertionSort fun a b => b.created_at ≤ a.created_at

/-- Handler `api_donations` from backend.py: left outer join of payments
with donations on `order_id`, ordered by `created_at` descending,
truncated to `limit` rows, projected to `DonationItem`s. -/
def api_donations (s : Store) (limit : Nat) : DonationList :=
  let rows := (sort_payments_desc s.payments).take limit
  { items := rows.map fun p =>
      match s.donations.find? (fun d => d.order_id == p.order_id) with
      | some d =>
          { orderId := p.order_id, nickname := p.nickname, amountWon := p.amount_won,
            amountWei := some d.amount_wei, memo := p.memo, txHash := some d.tx_hash,
            etherscanUrl := some d.etherscan_url, timestamp := p.created_at }
      | none =>
          { orderId := p.order_id, nickname := p.nickname, amountWon := p.amount_won,
            amountWei := none, memo := p.memo, txHash := none,
            etherscanUrl := none, timestamp := p.created_at },
    nextCursor := none }

/-! ### Basic lemmas about the embedded helpers -/

theorem data_append_0x (s : String) : (("0x" : String) ++ s).data = '0' :: 'x' :: s.data := by
  cases s
  rfl

theorem starts_with_0x_append (s : String) : starts_with_0x ("0x" ++ s) = true := by
  simp [starts_with_0x, data_append_0x]

theorem ensure_0x_idem (s : String) : ensure_0x (ensure_0x s) = ensure_0x s := by
  by_cases h : starts_with_0x s = true
  · simp [ensure_0x, h]
  · simp [ensure_0x, h, starts_with_0x_append]

theorem find?_append_last {α : Type} {l : List α} {pred : α → Bool} (d : α)
    (hnone : l.find? pred = none) (hd : pred d = true) :
    (l ++ [d]).find? pred = some d := by
  rw [List.find?_append, hnone]
  simp [List.find?, hd]

theorem countP_le_one_of_nodup_map {α : Type} (f : α → String) {l : List α}
    (h : (l.map f).Nodup) (y : String) :
    l.countP (fun x => f x == y) ≤ 1 := by
  induction l with
  | nil => simp
  | cons a t ih =>
      rw [List.map_cons, List.nodup_cons] at h
      rw [List.countP_cons]
      by_cases hay : (f a == y) = true
      · have hzero : t.countP (fun x => f x == y) = 0 := by
          rw [List.countP_eq_zero]
          intro x hx hxy
          have hx1 : f x = y := by simpa using hxy
          have hx2 : f a = y := by simpa using hay
          exact h.1 (List.mem_map.mpr ⟨x, hx, hx1.trans hx2.symm⟩)
        simp [hzero, hay]
      · simpa [hay] using ih h.2

theorem one_le_countP_of_find? {α : Type} {l : List α} {p : α → Bool} {a : α}
    (h : l.find? p = some a) : 1 ≤ l.countP p := by
  rw [Nat.succ_le, List.countP_pos]
  exact ⟨a, List.mem_of_find?_eq_some h, List.find?_some h⟩

theorem countP_eq_zero_of_find?_eq_none {α : Type} {l : List α} {p : α → Bool}
    (h : l.find? p = none) : l.countP p = 0 :=
  List.countP_eq_zero.mpr (List.find?_eq_none.mp h)

theorem find?_update_payment {ps : List Payment} {p : Payment} (p' : Payment) {oid : String}
    (h : ps.find? (fun q => q.order_id == oid) = some p) (hid : p'.order_id = p.order_id) :
    (update_payment ps p').find? (fun q => q.order_id == oid) = some p' := by
  induction ps with
  | nil => simp at h
  | cons a t ih =>
      by_cases ha : (a.order_id == oid) = true
      · rw [List.find?_cons, ha] at h
        have hap : a = p := by injection h
        have haid : (a.order_id == p'.order_id) = true := by
          simp [hap, hid]
        have hp'id : (p'.order_id == oid) = true := by
          have h1 : a.order_id = oid := by simpa using ha
          simp [hid, hap ▸ h1]
        simp only [update_payment, List.map_cons, if_pos haid]
        rw [List.find?_cons, hp'id]
      · rw [Bool.not_eq_true] at ha
        rw [List.find?_cons, ha] at h
        have h' : t.find? (fun q => q.order_id == oid) = some p := h
        have hpo0 := List.find?_some h'
        have hpo : (p.order_id == oid) = true := hpo0
        have haneg : (a.order_id == p'.order_id) = false := by
          rw [beq_eq_false_iff_ne]
          intro hcon
          have h2 : p.order_id = oid := by simpa using hpo
          have : (a.order_id == oid) = true := by simp [hcon, hid, h2]
          simp [this] at ha
        simp only [update_payment, List.map_cons, haneg, if_false, Bool.false_eq_true]
        rw [List.find?_cons, ha]
        exact ih h

theorem update_payment_map_order_id (ps : List Payment) (p' : Payment) :
    (update_payment ps p').map Payment.order_id = ps.map Payment.order_id := by
  induction ps with
  | nil => rfl
  | cons a t ih =>
      show ((if (a.order_id == p'.order_id) = true then p' else a).order_id)
          :: (update_payment t p').map Payment.order_id = a.order_id :: t.map Payment.order_id
      rw [ih]
      by_cases ha : (a.order_id == p'.order_id) = true
      · rw [if_pos ha, (beq_iff_eq.mp ha).symm]
      · rw [if_neg ha]

/-! ### Shared concrete fixtures for witnesses and counterexamples -/

/-- A web3 world with nothing configured (first guard of
`try_onchain_record` fails with a missing RPC URL). -/
def w3none : Web3Env :=
  { rpc := none, contract_addr := none, priv := none, abi := false, connected := false,
    code := [], key_ok := false, key_err := "", address := "", chain_id := 0,
    base_fee := none, gas_price := 0, nonce := 0, build_sign_err := none,
    raw_present := false, send_err := none, tx_hash_hex := "" }

/-- A successful KakaoPay wire response. -/
def kakaoOk : HttpResp :=
  { status_code := 200, text := "ok-body", json := some ⟨some "T1", none, none, none, "ok-body"⟩ }

/-- Offline-mode approve environment. -/
def envOffline : ApproveEnv :=
  { offline := true, kakao := kakaoOk, web3 := w3none, contract_address := none,
    now := 200, class_default := 100 }

/-- A pending order of 10000 won with a gateway reference attached. -/
def pendingPayment : Payment :=
  { order_id := "o1", tid := some "T1", payment_status := "pending", amount_won := 10000,
    nickname := some "Tester", memo := some "Mock run", created_at := 100, updated_at := 100 }

/-- Store holding exactly the pending order. -/
def storeOne : Store := ⟨[pendingPayment], []⟩

/-! ### Claim theorems -/

/-- C6: for every orderId not present in the ledger, `approve` fails with
the unknown-order error (HTTP 400, detail "unknown orderId") and performs
no state change: the returned store is exactly the input store, so no
order and no receipt is created or modified. -/
theorem approve_unknown_order (env : ApproveEnv) (s : Store) (body : ApproveReq)
    (k : Option String)
    (h : s.payments.find? (fun q => q.order_id == body.orderId) = none) :
    api_approve env s body k = (.error ⟨400, .str "unknown orderId"⟩, s) := by
  simp [api_approve, h]

theorem approve_unknown_order_witness :
    storeOne.payments.find? (fun q => q.order_id == "missing") = none ∧
    api_approve envOffline storeOne ⟨"missing", "tok"⟩ none =
      (.error ⟨400, .str "unknown orderId"⟩, storeOne) :=
  ⟨by decide, approve_unknown_order envOffline storeOne ⟨"missing", "tok"⟩ none (by decide)⟩

/-- C8: the advisory Idempotency-Key header has no effect on `approve`:
two invocations identical except for the key (present, absent, equal or
different values) produce the same response and the same resulting
store. The handler binds the header and never reads it. -/
theorem approve_ignores_idempotency_key (env : ApproveEnv) (s : Store) (body : ApproveReq)
    (k1 k2 : Option String) :
    api_approve env s body k1 = api_approve env s body k2 := rfl

/-- On a found, not-yet-approved order, with either offline mode or a
truthy `tid` and a successful gateway approve call, `api_approve`
performs the settlement tail. -/
theorem api_approve_eq_settle (env : ApproveEnv) (s : Store) (body : ApproveReq)
    (k : Option String) (p : Payment)
    (hfind : s.payments.find? (fun q => q.order_id == body.orderId) = some p)
    (hpend : p.payment_status ≠ "approved")
    (hok : env.offline = true ∨
      (py_truthy p.tid = true ∧ ∃ j, kakao_post env.kakao = .ok j)) :
    api_approve env s body k = (.ok (approve_settle env s p).1, (approve_settle env s p).2) := by
  have hstatus : (p.payment_status == "approved") = false := by
    rw [beq_eq_false_iff_ne]
    exact hpend
  simp only [api_approve, hfind, hstatus, Bool.false_eq_true, if_false]
  rcases hok with hoff | ⟨htid, j, hj⟩
  · simp [approve_after_lookup, hoff]
  · by_cases hoff : env.offline = true
    · simp [approve_after_lookup, hoff]
    · rw [Bool.not_eq_true] at hoff
      simp [approve_after_lookup, hoff, htid, hj]

/-- C5: for every order being approved with `amountMinor = n > 0`, the
persisted receipt and the response carry `amountLedgerUnits` equal to the
decimal string of `n * 10^9`; the handler computes that string once,
before the simulated/live branch, so the conversion is the same in both
modes. -/
theorem approve_amount_conversion (env : ApproveEnv) (s : Store) (body : ApproveReq)
    (k : Option String) (p : Payment) (n : Nat)
    (hfind : s.payments.find? (fun q => q.order_id == body.orderId) = some p)
    (hpend : p.payment_status ≠ "approved")
    (hamt : p.amount_won = n) (hn : 0 < n)
    (hok : env.offline = true ∨
      (py_truthy p.tid = true ∧ ∃ j, kakao_post env.kakao = .ok j)) :
    ∃ res s', api_approve env s body k = (.ok res, s') ∧
      res.amountWei = some (toString (n * 10 ^ 9)) ∧
      ∃ d ∈ s'.donations, d.order_id = p.order_id ∧
        d.amount_wei = toString (n * 10 ^ 9) := by
  refine ⟨(approve_settle env s p).1, (approve_settle env s p).2,
    api_approve_eq_settle env s body k p hfind hpend hok, ?_, ?_⟩
  · simp [approve_settle, hamt]
  · exact ⟨settle_donation env p, by simp [approve_settle], rfl,
      by simp [settle_donation, hamt]⟩

theorem approve_amount_conversion_witness :
    toString (10000 * 10 ^ 9) = "10000000000000" ∧
    ∃ res s', api_approve envOffline storeOne ⟨"o1", "tok"⟩ none = (.ok res, s') ∧
      res.amountWei = some (toString (10000 * 10 ^ 9)) ∧
      ∃ d ∈ s'.donations, d.order_id = pendingPayment.order_id ∧
        d.amount_wei = toString (10000 * 10 ^ 9) :=
  ⟨by decide,
    approve_amount_conversion envOffline storeOne ⟨"o1", "tok"⟩ none pendingPayment 10000
      (by decide) (by decide) (by decide) (by decide) (Or.inl (by decide))⟩

/-- C10: with offline/mock mode enabled, `approve` on a pending order
never contacts the gateway: for every token value the order becomes
approved and gets a confirmed receipt whose txRef is the sentinel
"0xDUMMY_HASH"; the response does not depend on the token at all, and no
gateway-reference (tid) check happens (the order may even have no tid). -/
theorem approve_offline_ignores_token (env : ApproveEnv) (s : Store) (oid : String)
    (k : Option String) (p : Payment)
    (hoff : env.offline = true)
    (hfind : s.payments.find? (fun q => q.order_id == oid) = some p)
    (hpend : p.payment_status = "pending") :
    ∀ tok : String,
      api_approve env s ⟨oid, tok⟩ k =
        (.ok (approve_settle env s p).1, (approve_settle env s p).2) ∧
      (approve_settle env s p).1.status = "paid" ∧
      (approve_settle env s p).1.txHash = some "0xDUMMY_HASH" ∧
      (approve_settle env s p).1.onchainStatus = some "confirmed" ∧
      (∃ d ∈ (approve_settle env s p).2.donations, d.order_id = p.order_id ∧
        d.tx_hash = "0xDUMMY_HASH" ∧ d.onchain_status = "confirmed") ∧
      (∃ q ∈ (approve_settle env s p).2.payments, q.order_id = p.order_id ∧
        q.payment_status = "approved") := by
  intro tok
  have hdummy : ensure_0x "0xDUMMY_HASH" = "0xDUMMY_HASH" := by decide
  refine ⟨api_approve_eq_settle env s ⟨oid, tok⟩ k p hfind (by simp [hpend]) (Or.inl hoff),
    by simp [approve_settle], ?_, ?_, ?_, ?_⟩
  · simp [approve_settle, settle_donation, settle_outcome, hoff, hdummy]
  · simp [approve_settle, settle_outcome, hoff]
  · refine ⟨settle_donation env p, by simp [approve_settle], rfl, ?_, ?_⟩
    · simp [settle_donation, settle_outcome, hoff, hdummy]
    · simp [settle_donation, settle_outcome, hoff]
  · refine ⟨{ p with payment_status := "approved", updated_at := env.now }, ?_, rfl, rfl⟩
    have hmem : p ∈ s.payments := List.mem_of_find?_eq_some hfind
    have hmem2 : { p with payment_status := "approved", updated_at := env.now }
        ∈ update_payment s.payments
          { p with payment_status := "approved", updated_at := env.now } := by
      exact List.mem_map.mpr ⟨p, hmem, by simp⟩
    simpa [approve_settle] using hmem2

/-- A broadcast outcome of `try_onchain_run` implies every guard of the
submission pipeline passed. -/
theorem try_onchain_run_sent {w : Web3Env} {a : Nat} {m : String} {tx : TxParams}
    {amt : Nat} {mm : String} {h : String}
    (hrun : try_onchain_run w a m = .sent tx amt mm h) :
    w.connected = true ∧ w.code ≠ [] ∧ w.key_ok = true ∧
    w.build_sign_err = none ∧ w.send_err = none := by
  unfold try_onchain_run at hrun
  repeat' split at hrun
  all_goals simp_all

/-- Every failure mode of the submission pipeline (unreachable RPC, no
contract code, bad key, build/sign exception, broadcast exception) makes
`try_onchain_record` return no hash and a failure message. -/
theorem try_onchain_fail_reasons (w : Web3Env) (a : Nat) (m : String)
    (hbad : w.connected = false ∨ w.code = [] ∨ w.key_ok = false ∨
      w.build_sign_err.isSome = true ∨ w.send_err.isSome = true) :
    (try_onchain_record w a m).1 = none ∧ (try_onchain_record w a m).2.isSome = true := by
  rcases hrec : try_onchain_run w a m with m' | ⟨tx, amt, mm, h⟩
  · simp [try_onchain_record, hrec]
  · exfalso
    obtain ⟨h1, h2, h3, h4, h5⟩ := try_onchain_run_sent hrec
    rcases hbad with hb | hb | hb | hb | hb <;> simp_all

/-- C2: when gateway verification succeeds but the on-chain submission
fails for any reason, `approve` does not raise: it returns status "paid"
with `onchainStatus` "error" and the failure reason in `onchainError`,
and persists a receipt bearing the sentinel txRef "0xERROR_ONCHAIN".
The final conjunct shows that each failure mode of the pipeline
(unreachable RPC, missing contract code, invalid key, signing error,
broadcast error) does yield such a no-hash failure result. -/
theorem approve_reports_onchain_error_as_data (env : ApproveEnv) (s : Store)
    (body : ApproveReq) (k : Option String) (p : Payment) (err : String)
    (hoff : env.offline = false)
    (hfind : s.payments.find? (fun q => q.order_id == body.orderId) = some p)
    (hpend : p.payment_status ≠ "approved")
    (htid : py_truthy p.tid = true)
    (hkak : ∃ j, kakao_post env.kakao = .ok j)
    (hchain : try_onchain_record env.web3 (p.amount_won * 10 ^ 9) (p.memo.getD "")
      = (none, some err)) :
    api_approve env s body k = (.ok (approve_settle env s p).1, (approve_settle env s p).2) ∧
    (approve_settle env s p).1.status = "paid" ∧
    (approve_settle env s p).1.onchainStatus = some "error" ∧
    (approve_settle env s p).1.onchainError = some err ∧
    (approve_settle env s p).1.txHash = some "0xERROR_ONCHAIN" ∧
    (∃ d ∈ (approve_settle env s p).2.donations, d.order_id = p.order_id ∧
      d.tx_hash = "0xERROR_ONCHAIN" ∧ d.onchain_status = "error") ∧
    (∀ w a m, (w.connected = false ∨ w.code = [] ∨ w.key_ok = false ∨
        w.build_sign_err.isSome = true ∨ w.send_err.isSome = true) →
      (try_onchain_record w a m).1 = none ∧ (try_onchain_record w a m).2.isSome = true) := by
  have herr : ensure_0x "0xERROR_ONCHAIN" = "0xERROR_ONCHAIN" := by decide
  have hout : settle_outcome env p = ("0xERROR_ONCHAIN", "error", some err) := by
    simp only [settle_outcome, hoff, Bool.false_eq_true, if_false]
    rw [hchain]
  refine ⟨api_approve_eq_settle env s body k p hfind hpend (Or.inr ⟨htid, hkak⟩),
    by simp [approve_settle], ?_, ?_, ?_, ?_, try_onchain_fail_reasons⟩
  · simp [approve_settle, hout]
  · simp [approve_settle, hout]
  · simp [approve_settle, settle_donation, hout, herr]
  · refine ⟨settle_donation env p, by simp [approve_settle], rfl, ?_, ?_⟩
    · simp [settle_donation, hout, herr]
    · simp [settle_donation, hout]

/-- Online approve environment whose web3 world has no RPC configured, so
submission fails with "RPC_URL missing". -/
def envOnlineFail : ApproveEnv :=
  { offline := false, kakao := kakaoOk, web3 := w3none, contract_address := none,
    now := 200, class_default := 100 }

theorem approve_reports_onchain_error_as_data_witness :
    api_approve envOnlineFail storeOne ⟨"o1", "tok"⟩ none =
      (.ok (approve_settle envOnlineFail storeOne pendingPayment).1,
        (approve_settle envOnlineFail storeOne pendingPayment).2) ∧
    (approve_settle envOnlineFail storeOne pendingPayment).1.status = "paid" ∧
    (approve_settle envOnlineFail storeOne pendingPayment).1.onchainStatus = some "error" ∧
    (approve_settle envOnlineFail storeOne pendingPayment).1.onchainError
      = some "RPC_URL missing" ∧
    (approve_settle envOnlineFail storeOne pendingPayment).1.txHash
      = some "0xERROR_ONCHAIN" := by
  have h := approve_reports_onchain_error_as_data envOnlineFail storeOne ⟨"o1", "tok"⟩ none
    pendingPayment "RPC_URL missing" rfl (by decide) (by decide) (by decide)
    ⟨⟨some "T1", none, none, none, "ok-body"⟩, rfl⟩ (by decide)
  exact ⟨h.1, h.2.1, h.2.2.1, h.2.2.2.1, h.2.2.2.2.1⟩

/-- C7: on a pending order in online mode, a gateway business rejection
(non-200 status with a parseable body) aborts `approve` with the raw
gateway payload forwarded unchanged inside the `kakao_error` detail, and
the store is returned untouched (the order stays pending, no receipt is
written); an unparseable remote body is instead reported as a distinct
502 transport-level error, also leaving the store untouched. -/
theorem approve_gateway_error_passthrough (env : ApproveEnv) (s : Store)
    (body : ApproveReq) (k : Option String) (p : Payment)
    (hoff : env.offline = false)
    (hfind : s.payments.find? (fun q => q.order_id == body.orderId) = some p)
    (hpend : p.payment_status = "pending")
    (htid : py_truthy p.tid = true) :
    (∀ j, env.kakao.json = some j → env.kakao.status_code ≠ 200 →
      api_approve env s body k = (.error ⟨400, .kakaoError j.raw⟩, s)) ∧
    (env.kakao.json = none →
      api_approve env s body k =
        (.error ⟨502, .str ("Kakao response not JSON: " ++ env.kakao.text)⟩, s)) := by
  have hstatus : (p.payment_status == "approved") = false := by
    simp [hpend]
  constructor
  · intro j hj hcode
    simp only [api_approve, hfind, hstatus, Bool.false_eq_true, if_false]
    simp [approve_after_lookup, hoff, htid, kakao_post, hj, hcode]
  · intro hj
    simp only [api_approve, hfind, hstatus, Bool.false_eq_true, if_false]
    simp [approve_after_lookup, hoff, htid, kakao_post, hj]

/-- A gateway business rejection: HTTP 500 with a parseable error body. -/
def kakaoReject : HttpResp :=
  { status_code := 500, text := "err-body",
    json := some ⟨none, none, none, none, "err-body"⟩ }

/-- A gateway response whose body is not JSON. -/
def kakaoNotJson : HttpResp :=
  { status_code := 200, text := "<html>", json := none }

def envKakaoReject : ApproveEnv :=
  { offline := false, kakao := kakaoReject, web3 := w3none, contract_address := none,
    now := 200, class_default := 100 }

def envKakaoNotJson : ApproveEnv :=
  { offline := false, kakao := kakaoNotJson, web3 := w3none, contract_address := none,
    now := 200, class_default := 100 }

theorem approve_gateway_error_passthrough_witness :
    api_approve envKakaoReject storeOne ⟨"o1", "tok"⟩ none =
      (.error ⟨400, .kakaoError "err-body"⟩, storeOne) ∧
    api_approve envKakaoNotJson storeOne ⟨"o1", "tok"⟩ none =
      (.error ⟨502, .str ("Kakao response not JSON: " ++ "<html>")⟩, storeOne) :=
  ⟨(approve_gateway_error_passthrough envKakaoReject storeOne ⟨"o1", "tok"⟩ none
      pendingPayment rfl (by decide) rfl (by decide)).1
        ⟨none, none, none, none, "err-body"⟩ rfl (by decide),
    (approve_gateway_error_passthrough envKakaoNotJson storeOne ⟨"o1", "tok"⟩ none
      pendingPayment rfl (by decide) rfl (by decide)).2 rfl⟩

/-- A live web3 world that passes every submission guard and whose latest
block reports `baseFeePerGas = 0`. -/
def w3zeroBase : Web3Env :=
  { rpc := some "https://rpc.example", contract_addr := some "0xC0", priv := some "0xK0",
    abi := true, connected := true, code := [96, 128], key_ok := true, key_err := "",
    address := "0xA0", chain_id := 11155111, base_fee := some 0, gas_price := 7,
    nonce := 3, build_sign_err := none, raw_present := true, send_err := none,
    tx_hash_hex := "aa11" }

/-- C9 counterexample: the latest block exposes a baseFeePerGas signal
(`base_fee = some 0`, so `block.get("baseFeePerGas")` returned a value),
yet the broadcast transaction is built with a static `gasPrice` and no
dynamic-fee fields, because the Python test `if base:` treats the value 0
as falsy. This refutes the claim that a present base-fee signal always
yields dynamic fees. -/
theorem fee_strategy_counterexample :
    w3zeroBase.base_fee.isSome = true ∧
    try_onchain_run w3zeroBase 5 "memo" = .sent (build_tx_params w3zeroBase) 5 "memo" "aa11" ∧
    (build_tx_params w3zeroBase).maxPriorityFeePerGas = none ∧
    (build_tx_params w3zeroBase).maxFeePerGas = none ∧
    (build_tx_params w3zeroBase).gasPrice = some 7 := by
  refine ⟨rfl, ?_, rfl, rfl, rfl⟩
  decide

/-- C9 (amended): in live-mode submission, when the latest block reports
a nonzero baseFeePerGas the transaction is built with dynamic fees — a
fixed 1 gwei priority fee and a cap of twice the base fee plus the
priority fee — and when the base-fee signal is absent, unreadable, or
zero it is built with the static network gas price instead; the built
transaction is exactly what the broadcast path sends. -/
theorem fee_strategy_amended (w : Web3Env) :
    (∀ b, w.base_fee = some b → b ≠ 0 →
      (build_tx_params w).maxPriorityFeePerGas = some GWEI ∧
      (build_tx_params w).maxFeePerGas = some (b * 2 + GWEI) ∧
      (build_tx_params w).gasPrice = none) ∧
    ((w.base_fee = none ∨ w.base_fee = some 0) →
      (build_tx_params w).maxPriorityFeePerGas = none ∧
      (build_tx_params w).maxFeePerGas = none ∧
      (build_tx_params w).gasPrice = some w.gas_price) ∧
    (∀ a m tx amt mm h, try_onchain_run w a m = .sent tx amt mm h →
      tx = build_tx_params w) := by
  refine ⟨?_, ?_, ?_⟩
  · intro b hb hb0
    simp [build_tx_params, hb, hb0]
  · rintro (hb | hb) <;> simp [build_tx_params, hb]
  · intro a m tx amt mm h hrun
    unfold try_onchain_run at hrun
    repeat' split at hrun
    all_goals simp_all

/-- A live web3 world whose latest block reports a nonzero base fee. -/
def w3dynBase : Web3Env := { w3zeroBase with base_fee := some 40 }

theorem fee_strategy_amended_witness :
    (build_tx_params w3dynBase).maxPriorityFeePerGas = some GWEI ∧
    (build_tx_params w3dynBase).maxFeePerGas = some (40 * 2 + GWEI) ∧
    (build_tx_params w3dynBase).gasPrice = none :=
  (fee_strategy_amended w3dynBase).1 40 rfl (by decide)

/-! ### The created-at default bug behind the listing order (C4) -/

/-- Offline ready environment for the i-th order of a single-process run:
every call shares the one `class_default` timestamp that the
`default=datetime.now(timezone.utc)` column argument captured at import
time. -/
def c4ReadyEnv (i : Nat) : ReadyEnv :=
  { offline := true, order_id := "o" ++ toString i, kakao := kakaoOk, class_default := 100 }

/-- Offline approve environment for the i-th order; the wall clock `now`
advances between calls, but `class_default` stays the import-time value. -/
def c4ApproveEnv (i : Nat) : ApproveEnv :=
  { offline := true, kakao := kakaoOk, web3 := w3none, contract_address := none,
    now := 200 + i, class_default := 100 }

def c4Req : ReadyReq :=
  { amountWon := 1000, nickname := none, memo := none, returnUrl := "http://localhost:8501" }

/-- One ready-then-approve round for the i-th order. -/
def c4Round (s : Store) (i : Nat) : Store :=
  let s1 := (api_ready (c4ReadyEnv i) s c4Req).2
  (api_approve (c4ApproveEnv i) s1 ⟨"o" ++ toString i, "OFFLINE"⟩ (some "idem")).2

/-- Store after five orders are created and approved in sequence within
one process run. -/
def c4Store : Store :=
  c4Round (c4Round (c4Round (c4Round (c4Round ⟨[], []⟩ 1) 2) 3) 4) 5

/-- C4 (code bug): after five orders are created and approved in
sequence in one process run, every stored order carries the same
`created_at` (the import-time column default), so `ORDER BY created_at
DESC` cannot order by recency: `list(limit=3)` returns the first three
orders inserted — "o1", "o2", "o3" — not the three most recently created
"o5", "o4", "o3" that the claim promises. -/
theorem donations_list_not_most_recent :
    (∀ p ∈ c4Store.payments, p.created_at = 100 ∧ p.payment_status = "approved") ∧
    c4Store.payments.map Payment.order_id = ["o1", "o2", "o3", "o4", "o5"] ∧
    (api_donations c4Store 3).items.map DonationItem.orderId = ["o1", "o2", "o3"] ∧
    (api_donations c4Store 3).items.map DonationItem.orderId ≠ ["o5", "o4", "o3"] := by
  refine ⟨by decide, by decide, ?_, ?_⟩ <;> decide

/-- A pending order with no gateway reference at all. -/
def payNoTid : Payment := { pendingPayment with order_id := "o9", tid := none }

def storeNoTid : Store := ⟨[payNoTid], []⟩

theorem approve_offline_ignores_token_witness :
    api_approve envOffline storeNoTid ⟨"o9", "whatever"⟩ none =
      (.ok (approve_settle envOffline storeNoTid payNoTid).1,
        (approve_settle envOffline storeNoTid payNoTid).2) ∧
    (approve_settle envOffline storeNoTid payNoTid).1.txHash = some "0xDUMMY_HASH" ∧
    (approve_settle envOffline storeNoTid payNoTid).1.onchainStatus = some "confirmed" :=
  have h := approve_offline_ignores_token envOffline storeNoTid "o9" none payNoTid rfl
    (by decide) rfl "whatever"
  ⟨h.1, h.2.2.1, h.2.2.2.1⟩

/-! ### Store invariants (C3) -/

/-- Inductive well-formedness of the store: primary keys of both tables
are unique, every receipt points to an existing order (donations are only
ever inserted for a looked-up payment), and a receipt exists for an order
exactly when the order is approved. -/
def store_wf (s : Store) : Prop :=
  (s.payments.map Payment.order_id).Nodup ∧
  (s.donations.map Donation.order_id).Nodup ∧
  (∀ d ∈ s.donations, ∃ p ∈ s.payments, p.order_id = d.order_id) ∧
  (∀ p ∈ s.payments,
    (∃ d ∈ s.donations, d.order_id = p.order_id) ↔ p.payment_status = "approved")

/-- The data-model invariant of the claim: every order has at most one
settlement receipt, and a receipt exists for it iff it is approved. -/
def receipt_claim (s : Store) : Prop :=
  ∀ p ∈ s.payments,
    s.donations.countP (fun d => d.order_id == p.order_id) ≤ 1 ∧
    ((∃ d ∈ s.donations, d.order_id = p.order_id) ↔ p.payment_status = "approved")

theorem receipt_claim_of_wf {s : Store} (h : store_wf s) : receipt_claim s := by
  intro p hp
  exact ⟨countP_le_one_of_nodup_map Donation.order_id h.2.1 p.order_id, h.2.2.2 p hp⟩

theorem store_wf_append_pending {s : Store} (p : Payment)
    (hwf : store_wf s) (hfresh : p.order_id ∉ s.payments.map Payment.order_id)
    (hpend : p.payment_status = "pending") :
    store_wf ⟨s.payments ++ [p], s.donations⟩ := by
  obtain ⟨hp, hd, hfk, hiff⟩ := hwf
  refine ⟨?_, hd, ?_, ?_⟩
  · rw [List.map_append]
    rw [List.nodup_append]
    exact ⟨hp, List.nodup_singleton _, by
      intro a ha hb
      have : a = p.order_id := by simpa using hb
      exact hfresh (this ▸ ha)⟩
  · intro d hdmem
    obtain ⟨q, hq, hqd⟩ := hfk d hdmem
    exact ⟨q, List.mem_append_left _ hq, hqd⟩
  · intro q hq
    rcases List.mem_append.mp hq with hq | hq
    · exact hiff q hq
    · have hqp : q = p := by simpa using hq
      subst hqp
      constructor
      · rintro ⟨d, hdmem, hdq⟩
        obtain ⟨r, hr, hrd⟩ := hfk d hdmem
        exact absurd (List.mem_map.mpr ⟨r, hr, hrd.trans hdq⟩) hfresh
      · intro habs
        rw [hpend] at habs
        exact absurd habs (by decide)

/-- The store after `api_ready` either is unchanged (gateway rejection)
or has one fresh pending payment appended. -/
theorem api_ready_snd (env : ReadyEnv) (s : Store) (body : ReadyReq) :
    (api_ready env s body).2 = s ∨
    ∃ tid, (api_ready env s body).2 =
      ⟨s.payments ++
        [{ order_id := env.order_id, tid := tid, payment_status := "pending",
           amount_won := body.amountWon, nickname := body.nickname, memo := body.memo,
           created_at := env.class_default, updated_at := env.class_default }],
        s.donations⟩ := by
  unfold api_ready
  by_cases hoff : env.offline = true
  · exact Or.inr ⟨some "OFFLINE_TID", by simp [hoff]⟩
  · rw [Bool.not_eq_true] at hoff
    simp only [hoff, Bool.false_eq_true, if_false]
    cases hkp : kakao_post env.kakao with
    | error e => exact Or.inl (by simp)
    | ok ready =>
        refine Or.inr ⟨ready.tid, ?_⟩
        simp only []
        split <;> rfl

theorem store_wf_ready (env : ReadyEnv) (s : Store) (body : ReadyReq)
    (hwf : store_wf s) (hfresh : env.order_id ∉ s.payments.map Payment.order_id) :
    store_wf (api_ready env s body).2 := by
  rcases api_ready_snd env s body with h | ⟨tid, h⟩
  · rwa [h]
  · rw [h]
    exact store_wf_append_pending _ hwf hfresh rfl

/-- The store after `approve_after_lookup` is unchanged or the settled one. -/
theorem approve_after_lookup_snd (env : ApproveEnv) (s : Store) (p : Payment) :
    (approve_after_lookup env s p).2 = s ∨
    (approve_after_lookup env s p).2 = (approve_settle env s p).2 := by
  unfold approve_after_lookup
  split
  · exact Or.inr rfl
  · split
    · exact Or.inl rfl
    · cases hkp : kakao_post env.kakao with
      | error e => exact Or.inl (by simp)
      | ok j => exact Or.inr (by simp)

/-- The store after `api_approve` is unchanged, or is the settlement of a
found order that either had no receipt row or was not approved. -/
theorem api_approve_snd (env : ApproveEnv) (s : Store) (body : ApproveReq)
    (k : Option String) :
    (api_approve env s body k).2 = s ∨
    ∃ p, s.payments.find? (fun q => q.order_id == body.orderId) = some p ∧
      (s.donations.find? (fun d => d.order_id == p.order_id) = none ∨
        p.payment_status ≠ "approved") ∧
      (api_approve env s body k).2 = (approve_settle env s p).2 := by
  cases hfind : s.payments.find? (fun q => q.order_id == body.orderId) with
  | none => exact Or.inl (by simp [api_approve, hfind])
  | some p =>
      by_cases hst : (p.payment_status == "approved") = true
      · cases hdon : s.donations.find? (fun d => d.order_id == p.order_id) with
        | some d => exact Or.inl (by simp [api_approve, hfind, hst, hdon])
        | none =>
            have heq : (api_approve env s body k).2 = (approve_after_lookup env s p).2 := by
              simp [api_approve, hfind, hst, hdon]
            rcases approve_after_lookup_snd env s p with h | h
            · exact Or.inl (heq.trans h)
            · exact Or.inr ⟨p, rfl, Or.inl hdon, heq.trans h⟩
      · have heq : (api_approve env s body k).2 = (approve_after_lookup env s p).2 := by
          simp [api_approve, hfind, hst]
        rcases approve_after_lookup_snd env s p with h | h
        · exact Or.inl (heq.trans h)
        · exact Or.inr ⟨p, rfl, Or.inr (fun habs => hst (by simp [habs])),
            heq.trans h⟩

theorem store_wf_settle (env : ApproveEnv) {s : Store} {p : Payment} {oid : String}
    (hwf : store_wf s)
    (hfind : s.payments.find? (fun q => q.order_id == oid) = some p)
    (hnodon : s.donations.find? (fun d => d.order_id == p.order_id) = none) :
    store_wf (approve_settle env s p).2 := by
  obtain ⟨hp, hd, hfk, hiff⟩ := hwf
  have hnomem : p.order_id ∉ s.donations.map Donation.order_id := by
    intro hmem
    obtain ⟨d0, hd0, hd0p⟩ := List.mem_map.mp hmem
    have := List.find?_eq_none.mp hnodon d0 hd0
    simp [hd0p] at this
  refine ⟨?_, ?_, ?_, ?_⟩
  · show ((update_payment s.payments _).map Payment.order_id).Nodup
    rw [update_payment_map_order_id]
    exact hp
  · show ((s.donations ++ [settle_donation env p]).map Donation.order_id).Nodup
    rw [List.map_append]
    rw [List.nodup_append]
    refine ⟨hd, List.nodup_singleton _, ?_⟩
    intro a ha hb
    have hab : a = p.order_id := by simpa [settle_donation] using hb
    exact hnomem (hab ▸ ha)
  · intro d hdmem
    rcases List.mem_append.mp hdmem with hdm | hdm
    · obtain ⟨q, hq, hqd⟩ := hfk d hdm
      have : q.order_id ∈ (update_payment s.payments
          { p with payment_status := "approved", updated_at := env.now }).map
            Payment.order_id := by
        rw [update_payment_map_order_id]
        exact List.mem_map.mpr ⟨q, hq, rfl⟩
      obtain ⟨q', hq', hq'id⟩ := List.mem_map.mp this
      exact ⟨q', hq', hq'id.trans hqd⟩
    · have hdd : d = settle_donation env p := by simpa using hdm
      subst hdd
      refine ⟨{ p with payment_status := "approved", updated_at := env.now },
        List.mem_map.mpr ⟨p, List.mem_of_find?_eq_some hfind, by simp⟩, rfl⟩
  · intro q' hq'
    obtain ⟨q, hq, hq'eq⟩ := List.mem_map.mp hq'
    by_cases hqp : (q.order_id == p.order_id) = true
    · have hq'p : q' = { p with payment_status := "approved", updated_at := env.now } := by
        rw [← hq'eq]
        simp [hqp]
      rw [hq'p]
      apply iff_of_true
      · exact ⟨settle_donation env p, List.mem_append_right _ (by simp), rfl⟩
      · rfl
    · have hq'q : q' = q := by
        rw [← hq'eq]
        simp [hqp]
      rw [hq'q]
      have hqid : q.order_id ≠ p.order_id := by
        intro habs
        simp [habs] at hqp
      constructor
      · rintro ⟨d, hdmem, hdq⟩
        rcases List.mem_append.mp hdmem with hdm | hdm
        · exact (hiff q hq).mp ⟨d, hdm, hdq⟩
        · have hdd : d = settle_donation env p := by simpa using hdm
          rw [hdd] at hdq
          exact absurd hdq (by simpa [settle_donation] using hqid.symm)
      · intro happ
        obtain ⟨d, hdm, hdq⟩ := (hiff q hq).mpr happ
        exact ⟨d, List.mem_append_left _ hdm, hdq⟩

theorem store_wf_approve (env : ApproveEnv) (s : Store) (body : ApproveReq)
    (k : Option String) (hwf : store_wf s) : store_wf (api_approve env s body k).2 := by
  rcases api_approve_snd env s body k with h | ⟨p, hfind, hcase, heq⟩
  · rwa [h]
  · rw [heq]
    have hnodon : s.donations.find? (fun d => d.order_id == p.order_id) = none := by
      rcases hcase with h0 | h0
      · exact h0
      · rw [List.find?_eq_none]
        intro d hd hdp
        have hex : ∃ d0 ∈ s.donations, d0.order_id = p.order_id :=
          ⟨d, hd, by simpa using hdp⟩
        exact h0 ((hwf.2.2.2 p (List.mem_of_find?_eq_some hfind)).mp hex)
    exact store_wf_settle env hwf hfind hnodon

/-- C3: after every completed public operation the data-model invariant
holds for every order in the store: at most one settlement receipt, and a
receipt exists iff the order is approved. The three conjuncts cover the
store after `ready` (with a fresh generated orderId), the store after
`approve`, and the store seen by `list` (`api_donations` is read-only, so
that store is the input store itself). -/
theorem public_ops_preserve_receipt_invariant (envr : ReadyEnv) (enva : ApproveEnv)
    (s : Store) (br : ReadyReq) (ba : ApproveReq) (k : Option String)
    (hwf : store_wf s) (hfresh : envr.order_id ∉ s.payments.map Payment.order_id) :
    receipt_claim (api_ready envr s br).2 ∧
    receipt_claim (api_approve enva s ba k).2 ∧
    receipt_claim s :=
  ⟨receipt_claim_of_wf (store_wf_ready envr s br hwf hfresh),
    receipt_claim_of_wf (store_wf_approve enva s ba k hwf),
    receipt_claim_of_wf hwf⟩

def readyEnvFresh : ReadyEnv :=
  { offline := true, order_id := "o2", kakao := kakaoOk, class_default := 100 }

theorem public_ops_preserve_receipt_invariant_witness :
    receipt_claim (api_ready readyEnvFresh storeOne c4Req).2 ∧
    receipt_claim (api_approve envOffline storeOne ⟨"o1", "tok"⟩ none).2 ∧
    receipt_claim storeOne :=
  public_ops_preserve_receipt_invariant readyEnvFresh envOffline storeOne c4Req
    ⟨"o1", "tok"⟩ none ⟨by decide, by decide, by decide, by decide⟩ (by decide)

/-! ### Idempotent replay of approve (C1) -/

/-- First approve call on the pending sample order. -/
def c1First : Except HTTPException ApproveRes × Store :=
  api_approve envOffline storeOne ⟨"o1", "tok"⟩ (some "key-a")

/-- Second approve call on the same order, after the first completed. -/
def c1Second : Except HTTPException ApproveRes × Store :=
  api_approve envOffline c1First.2 ⟨"o1", "tok"⟩ (some "key-b")

/-- C1 counterexample: the first approve call answers with display field
`function = "recordDonation"`, but the replay on the already-approved
order re-derives that field from the stored nonzero `amount_wei` and
answers `function = "donateEthAndForward"`, so the two responses are not
bit-identical even though the store (with its single receipt) is
unchanged by the replay. -/
theorem approve_replay_not_bit_identical :
    (∀ p ∈ c1First.2.payments, p.payment_status = "approved") ∧
    c1First.2.donations.length = 1 ∧
    c1Second.2 = c1First.2 ∧
    c1First.1.toOption.map ApproveRes.function = some (some "recordDonation") ∧
    c1Second.1.toOption.map ApproveRes.function = some (some "donateEthAndForward") ∧
    c1First.1.toOption ≠ c1Second.1.toOption := by
  refine ⟨by decide, by decide, by decide, by decide, by decide, by decide⟩

/-- A successful outcome of `approve_after_lookup` is the settlement. -/
theorem approve_after_lookup_ok {env : ApproveEnv} {s s' : Store} {p : Payment}
    {r : ApproveRes} (h : approve_after_lookup env s p = (.ok r, s')) :
    (r, s') = approve_settle env s p := by
  unfold approve_after_lookup at h
  split at h
  · have h' : ((.ok (approve_settle env s p).1 : Except HTTPException ApproveRes),
        (approve_settle env s p).2) = (.ok r, s') := h
    have hf := congrArg Prod.fst h'
    have hsn := congrArg Prod.snd h'
    simp only [] at hf hsn
    injection hf with hf
    rw [← hf, ← hsn]
  · split at h
    · injection h with h1
      exact absurd h1 (by simp)
    · rcases hkp : kakao_post env.kakao with e | j
      · rw [hkp] at h
        injection h with h1
        exact absurd h1 (by simp)
      · rw [hkp] at h
        have h' : ((.ok (approve_settle env s p).1 : Except HTTPException ApproveRes),
            (approve_settle env s p).2) = (.ok r, s') := h
        have hf := congrArg Prod.fst h'
        have hsn := congrArg Prod.snd h'
        simp only [] at hf hsn
        injection hf with hf
        rw [← hf, ← hsn]

/-- The idempotent replay branch of `api_approve`: a found, approved
order with a receipt row is answered from the stored rows, with no store
change. -/
theorem api_approve_eq_replay (env : ApproveEnv) (s : Store) (body : ApproveReq)
    (k : Option String) (p : Payment) (d : Donation)
    (hfind : s.payments.find? (fun q => q.order_id == body.orderId) = some p)
    (hst : (p.payment_status == "approved") = true)
    (hdon : s.donations.find? (fun d => d.order_id == p.order_id) = some d) :
    api_approve env s body k = (.ok (approve_replay env p d), s) := by
  simp only [api_approve, hfind, hst, if_true, hdon]

/-- C1 (amended): once an `approve` call has completed successfully, any
subsequent `approve` with the same orderId (any token, any idempotency
key, same configured contract address) succeeds without touching the
store — so exactly one receipt row exists afterwards — and returns the
same status, orderId, txHash, etherscanUrl, amountWon, amountWei,
onchainStatus, contractAddress, contractName and orderIdKeccak as the
first response. (The remaining fields are genuinely not replayed
bit-identically: the replay always reports `onchainError = none`, always
uses the fixed default explorer base, and re-derives `function` from the
stored amount, as the counterexample shows.) -/
theorem approve_replay_core_fields (env env2 : ApproveEnv) (s s1 : Store)
    (body : ApproveReq) (k k2 : Option String) (tok2 : String) (r1 : ApproveRes)
    (hwf : store_wf s)
    (hcfg : env2.contract_address = env.contract_address)
    (h1 : api_approve env s body k = (.ok r1, s1)) :
    ∃ r2, api_approve env2 s1 ⟨body.orderId, tok2⟩ k2 = (.ok r2, s1) ∧
      r2.status = r1.status ∧ r2.orderId = r1.orderId ∧ r2.txHash = r1.txHash ∧
      r2.etherscanUrl = r1.etherscanUrl ∧ r2.amountWon = r1.amountWon ∧
      r2.amountWei = r1.amountWei ∧ r2.onchainStatus = r1.onchainStatus ∧
      r2.contractAddress = r1.contractAddress ∧ r2.contractName = r1.contractName ∧
      r2.orderIdKeccak = r1.orderIdKeccak ∧
      s1.donations.countP (fun d => d.order_id == body.orderId) = 1 := by
  cases hfind : s.payments.find? (fun q => q.order_id == body.orderId) with
  | none =>
      rw [api_approve] at h1
      rw [hfind] at h1
      exact absurd (congrArg Prod.fst h1) (by simp)
  | some p =>
      have hpoid0 := List.find?_some hfind
      have hpoid : (p.order_id == body.orderId) = true := hpoid0
      have hoid : p.order_id = body.orderId := by simpa using hpoid
      by_cases hst : (p.payment_status == "approved") = true
      · cases hdon : s.donations.find? (fun d => d.order_id == p.order_id) with
        | none =>
            exfalso
            have happr : p.payment_status = "approved" := by simpa using hst
            obtain ⟨d0, hd0, hd0p⟩ :=
              (hwf.2.2.2 p (List.mem_of_find?_eq_some hfind)).mpr happr
            have := List.find?_eq_none.mp hdon d0 hd0
            simp [hd0p] at this
        | some d =>
            rw [api_approve_eq_replay env s body k p d hfind hst hdon] at h1
            have hr1 : approve_replay env p d = r1 := by
              have := congrArg Prod.fst h1
              simpa using this
            have hs1 : s = s1 := congrArg Prod.snd h1
            refine ⟨approve_replay env2 p d, ?_, ?_⟩
            · rw [← hs1]
              exact api_approve_eq_replay env2 s ⟨body.orderId, tok2⟩ k2 p d hfind hst hdon
            · rw [← hr1, ← hs1]
              refine ⟨rfl, rfl, rfl, rfl, rfl, rfl, rfl, ?_, rfl, rfl, ?_⟩
              · show env2.contract_address = env.contract_address
                exact hcfg
              · have hle : s.donations.countP (fun d => d.order_id == body.orderId) ≤ 1 :=
                  countP_le_one_of_nodup_map Donation.order_id hwf.2.1 body.orderId
                have hge : 1 ≤ s.donations.countP (fun d => d.order_id == body.orderId) :=
                  one_le_countP_of_find? (hoid ▸ hdon)
                omega
      · -- the first call actually performed the settlement
        have hstf : (p.payment_status == "approved") = false := by
          rwa [Bool.not_eq_true] at hst
        have hpend : p.payment_status ≠ "approved" := by
          intro habs
          simp [habs] at hstf
        have hnodon : s.donations.find? (fun d => d.order_id == p.order_id) = none := by
          rw [List.find?_eq_none]
          intro d0 hd0 hd0p
          have hex : ∃ d ∈ s.donations, d.order_id = p.order_id :=
            ⟨d0, hd0, by simpa using hd0p⟩
          exact hpend ((hwf.2.2.2 p (List.mem_of_find?_eq_some hfind)).mp hex)
        have hroute : api_approve env s body k = approve_after_lookup env s p := by
          simp only [api_approve, hfind, hstf, Bool.false_eq_true, if_false]
        rw [hroute] at h1
        have hset := approve_after_lookup_ok h1
        have hr1 : r1 = (approve_settle env s p).1 := congrArg Prod.fst hset
        have hs1 : s1 = (approve_settle env s p).2 := congrArg Prod.snd hset
        have hfind2 : s1.payments.find? (fun q => q.order_id == body.orderId)
            = some { p with payment_status := "approved", updated_at := env.now } := by
          rw [hs1]
          exact find?_update_payment _ hfind rfl
        have hdon2 : s1.donations.find?
            (fun d => d.order_id ==
              ({ p with payment_status := "approved", updated_at := env.now } : Payment).order_id)
            = some (settle_donation env p) := by
          rw [hs1]
          exact find?_append_last _ hnodon (by simp [settle_donation])
        refine ⟨approve_replay env2
          { p with payment_status := "approved", updated_at := env.now }
          (settle_donation env p), ?_, ?_⟩
        · rw [api_approve_eq_replay env2 s1 ⟨body.orderId, tok2⟩ k2 _ _ hfind2 rfl hdon2]
        · refine ⟨by rw [hr1]; rfl, by rw [hr1]; rfl, ?_, by rw [hr1]; rfl,
            by rw [hr1]; rfl, by rw [hr1]; rfl, by rw [hr1]; rfl, ?_,
            by rw [hr1]; rfl, by rw [hr1]; rfl, ?_⟩
          · rw [hr1]
            show some (ensure_0x (settle_outcome env p).1)
              = some (ensure_0x (ensure_0x (settle_outcome env p).1))
            rw [ensure_0x_idem]
          · rw [hr1]
            show env2.contract_address = env.contract_address
            exact hcfg
          · rw [hs1]
            have hzero : s.donations.countP (fun d => d.order_id == body.orderId) = 0 :=
              countP_eq_zero_of_find?_eq_none (hoid ▸ hnodon)
            have hsd : ((settle_donation env p).order_id == body.orderId) = true := by
              simp [settle_donation, hoid]
            show ((s.donations ++ [settle_donation env p]).countP
              (fun d => d.order_id == body.orderId)) = 1
            rw [List.countP_append, hzero, List.countP_cons]
            simp [hsd]

theorem approve_replay_core_fields_witness :
    ∃ r2, api_approve envOffline c1First.2 ⟨"o1", "tok2"⟩ (some "key-c") = (.ok r2, c1First.2) ∧
      r2.status = "paid" ∧ r2.txHash = some "0xDUMMY_HASH" ∧
      c1First.2.donations.countP (fun d => d.order_id == "o1") = 1 := by
  have h := approve_replay_core_fields envOffline envOffline storeOne c1First.2
    ⟨"o1", "tok"⟩ (some "key-a") (some "key-c") "tok2" (c1First.1.toOption.getD
      (approve_replay envOffline pendingPayment (settle_donation envOffline pendingPayment)))
    ⟨by decide, by decide, by decide, by decide⟩ rfl rfl
  obtain ⟨r2, heq, hstat, _, htx, _, _, _, _, _, _, _, hcount⟩ := h
  refine ⟨r2, heq, ?_, ?_, hcount⟩
  · rw [hstat]
    decide
  · rw [htx]
    decide

end DonationBackend
